import Mathlib

/-!
Verification development for the deal-valuation calculator scripts
(`scripts/calculate_irr_sensitivity.py`, `scripts/create_irr_sensitivity_table.py`,
`scripts/calculate_has_gets.py`, `scripts/calculate_cash_flow_metrics.py`).

Python floats are modelled by exact rationals (`ℚ`); every definition mirrors the
corresponding Python function. `None`-returning functions are modelled with `Option`.
-/

/-! ## IRR solver (`calculate_irr`, identical in `calculate_irr_sensitivity.py`
lines 31-64 and `create_irr_sensitivity_table.py` lines 28-53) -/

/-- Helper for `npv`: `npvFrom rate cfs i` is
`sum(cf / (1 + rate) ** k for k, cf in enumerate(cfs))` with the enumeration
index starting at `i`. -/
def npvFrom (rate : ℚ) : List ℚ → ℕ → ℚ
  | [], _ => 0
  | cf :: cfs, i => cf / (1 + rate) ^ i + npvFrom rate cfs (i + 1)

/-- The inner `npv(rate)` of `calculate_irr`:
`sum(cf / (1 + rate) ** i for i, cf in enumerate(cash_flows))`. -/
def npv (cash_flows : List ℚ) (rate : ℚ) : ℚ :=
  npvFrom rate cash_flows 0

/-- The bisection loop of `calculate_irr`: `for _ in range(n)` rounds; each round
evaluates NPV at the midpoint, returns `mid * 100` when `abs(npv_mid) < tolerance`,
otherwise moves `low` up to the midpoint (if `npv_mid > 0`) or `high` down to it;
after the loop returns `((low + high) / 2) * 100`. -/
def bisect (cash_flows : List ℚ) (tolerance : ℚ) : ℚ → ℚ → ℕ → ℚ
  | low, high, 0 => (low + high) / 2 * 100
  | low, high, n + 1 =>
    if |npv cash_flows ((low + high) / 2)| < tolerance then (low + high) / 2 * 100
    else if npv cash_flows ((low + high) / 2) > 0 then
      bisect cash_flows tolerance ((low + high) / 2) high n
    else
      bisect cash_flows tolerance low ((low + high) / 2) n

/-- `calculate_irr(cash_flows)`: binary search for IRR between -99% and 1000%
(`low, high = -0.99, 10.0`, `tolerance = 1e-6`, 100 iterations); returns `None`
when `npv(high) > 0`.  The Python `try/except` needs no counterpart: over exact
rationals no arithmetic exception can arise (see `irr_total_rates_bounded`). -/
def calculate_irr (cash_flows : List ℚ) : Option ℚ :=
  if npv cash_flows 10 > 0 then none
  else some (bisect cash_flows (1 / 1000000) (-99 / 100) 10 100)

/-- The list of midpoints at which the bisection loop of `calculate_irr` evaluates
`npv`, in evaluation order (companion to `bisect`, same branch structure). -/
def bisectRates (cash_flows : List ℚ) (tolerance : ℚ) : ℚ → ℚ → ℕ → List ℚ
  | _, _, 0 => []
  | low, high, n + 1 =>
    (low + high) / 2 ::
      (if |npv cash_flows ((low + high) / 2)| < tolerance then []
       else if npv cash_flows ((low + high) / 2) > 0 then
         bisectRates cash_flows tolerance ((low + high) / 2) high n
       else
         bisectRates cash_flows tolerance low ((low + high) / 2) n)

/-- Every rate at which `calculate_irr cash_flows` evaluates `npv`: the ceiling
check at `high = 10.0`, then the bisection midpoints. -/
def irrEvalRates (cash_flows : List ℚ) : List ℚ :=
  10 :: (if npv cash_flows 10 > 0 then []
         else bisectRates cash_flows (1 / 1000000) (-99 / 100) 10 100)

/-! ## Operating-cash-flow estimator
(`calculate_cash_flow_metrics.py` lines 35-66).  `estimated_da = revenue * 0.03`
is inlined as `revenue * (3 / 100)`. -/

/-- `estimate_operating_cash_flow(net_income, revenue, operating_income, has_ocf=None)`:
returns `has_ocf` when supplied; otherwise estimates OCF by branch on
profitability, then applies `max(ocf, revenue * 0.02)` unconditionally
(line 66: `return max(ocf, revenue * 0.02)`). -/
def estimate_operating_cash_flow (net_income revenue operating_income : ℚ)
    (has_ocf : Option ℚ) : ℚ :=
  match has_ocf with
  | some v => v
  | none =>
    max
      (if net_income > 0 then (net_income + revenue * (3 / 100)) * (90 / 100)
       else if operating_income > -revenue * (10 / 100) then
         operating_income + revenue * (3 / 100)
       else max (operating_income + revenue * (3 / 100)) (revenue * (2 / 100)))
      (revenue * (2 / 100))

/-! ## Has/Gets consolidation (`calculate_has_gets.py`) -/

/-- Corporate tax rate (constant `TAX_RATE = 0.21` in both scripts). -/
def TAX_RATE : ℚ := 21 / 100

/-- Assumed interest rate on debt (`INTEREST_RATE = 0.04`). -/
def INTEREST_RATE : ℚ := 4 / 100

/-- D&A as a fraction of revenue for NVIDIA (`DA_PCT_NVDA = 0.02`). -/
def DA_PCT_NVDA : ℚ := 2 / 100

/-- D&A as a fraction of revenue for Lattice (`DA_PCT_LSCC = 0.03`). -/
def DA_PCT_LSCC : ℚ := 3 / 100

/-- Acquisition premium (`PREMIUM_PCT = 0.30`). -/
def PREMIUM_PCT : ℚ := 30 / 100

/-- `calculate_ebitda(operating_income, revenue, da_pct)`:
EBITDA = operating income + revenue × da_pct. -/
def calculate_ebitda (operating_income revenue da_pct : ℚ) : ℚ :=
  operating_income + revenue * da_pct

/-- The per-entity financial facts read from `master_financials.json` that
`calculate_has_gets_metrics` consumes. -/
structure FinFacts where
  revenue : ℚ
  net_income : ℚ
  operating_income : ℚ
  total_debt : ℚ
  stockholders_equity : ℚ
  shares_outstanding : ℚ

/-- The per-entity market facts read from `market_data.json` that
`calculate_has_gets_metrics` consumes. -/
structure MarketQuote where
  current_price : ℚ
  market_cap : ℚ
  cash : ℚ

/-- The numeric outputs of `calculate_has_gets_metrics` (the values it prints and
returns; optional fields are the ratios guarded by positivity checks). -/
structure HasGetsResult where
  offer_price : ℚ
  transaction_value : ℚ
  pro_forma_net_income : ℚ
  pro_forma_ebitda : ℚ
  pro_forma_debt : ℚ
  pro_forma_cash : ℚ
  pro_forma_equity : ℚ
  goodwill : ℚ
  pro_forma_interest : ℚ
  pro_forma_pe : Option ℚ
  pro_forma_debt_ebitda : Option ℚ
  pro_forma_ebitda_interest : Option ℚ
  pro_forma_debt_cap_book : Option ℚ
  pro_forma_debt_cap_market : Option ℚ
  pro_forma_net_debt_cap : Option ℚ

/-- The computational core of `calculate_has_gets_metrics()` (lines 68-275),
parametrised by the loaded data.  Note the function performs no validation of
`shares_outstanding` whatsoever: lines 94-97 compute
`offer_price = lscc_current_price * (1 + PREMIUM_PCT)` and
`transaction_value = offer_price * lscc_shares` directly, and lines 175-182
compute `goodwill = transaction_value - lscc_book_value` with no clamping.
`annual_synergies = 123_200_000` is the hard-coded value of line 89. -/
def calculate_has_gets_metrics (nvda : FinFacts) (nvda_market : MarketQuote)
    (lscc : FinFacts) (lscc_market : MarketQuote) : HasGetsResult :=
  let annual_synergies : ℚ := 123200000
  let offer_price := lscc_market.current_price * (1 + PREMIUM_PCT)
  let transaction_value := offer_price * lscc.shares_outstanding
  let nvda_ebitda := calculate_ebitda nvda.operating_income nvda.revenue DA_PCT_NVDA
  let lscc_ebitda := calculate_ebitda lscc.operating_income lscc.revenue DA_PCT_LSCC
  let pro_forma_net_income :=
    nvda.net_income + lscc.net_income + annual_synergies * (1 - TAX_RATE)
  let pro_forma_ebitda := nvda_ebitda + lscc_ebitda + annual_synergies
  let pro_forma_debt := nvda.total_debt + lscc.total_debt
  let pro_forma_cash := nvda_market.cash + lscc_market.cash - transaction_value
  let lscc_book_value := lscc.stockholders_equity
  let goodwill := transaction_value - lscc_book_value
  let pro_forma_equity := nvda.stockholders_equity - transaction_value + goodwill
  let pro_forma_interest :=
    nvda.total_debt * INTEREST_RATE + lscc.total_debt * INTEREST_RATE
  let nvda_market_cap := nvda_market.market_cap
  { offer_price := offer_price
    transaction_value := transaction_value
    pro_forma_net_income := pro_forma_net_income
    pro_forma_ebitda := pro_forma_ebitda
    pro_forma_debt := pro_forma_debt
    pro_forma_cash := pro_forma_cash
    pro_forma_equity := pro_forma_equity
    goodwill := goodwill
    pro_forma_interest := pro_forma_interest
    pro_forma_pe :=
      if pro_forma_net_income > 0 then some (nvda_market_cap / pro_forma_net_income)
      else none
    pro_forma_debt_ebitda :=
      if pro_forma_ebitda > 0 then some (pro_forma_debt / pro_forma_ebitda) else none
    pro_forma_ebitda_interest :=
      if pro_forma_interest > 0 then some (pro_forma_ebitda / pro_forma_interest)
      else none
    pro_forma_debt_cap_book :=
      if pro_forma_debt + pro_forma_equity > 0 then
        some (pro_forma_debt / (pro_forma_debt + pro_forma_equity) * 100)
      else none
    pro_forma_debt_cap_market :=
      if pro_forma_debt + nvda_market_cap > 0 then
        some (pro_forma_debt / (pro_forma_debt + nvda_market_cap) * 100)
      else none
    pro_forma_net_debt_cap :=
      if pro_forma_debt + pro_forma_equity > 0 then
        some ((pro_forma_debt - pro_forma_cash) / (pro_forma_debt + pro_forma_equity) * 100)
      else none }

/-! ## Cash-flow projection (`calculate_irr_sensitivity.py` lines 128-154) -/

/-- Exit EBITDA multiple (`TERMINAL_MULTIPLE = 20.0`). -/
def TERMINAL_MULTIPLE : ℚ := 20

/-- Holding period in years (`HOLDING_PERIOD = 7`). -/
def HOLDING_PERIOD : ℕ := 7

/-- `cash_flows[-1] += v`: add `v` to the last element of a list. -/
def addToLast : List ℚ → ℚ → List ℚ
  | [], _ => []
  | [cf], v => [cf + v]
  | cf :: cf2 :: cfs, v => cf :: addToLast (cf2 :: cfs) v

/-- The cash-flow stream built per scenario in `calculate_irr_sensitivity`
(lines 128-151): `cash_flows = [-transaction_value]`, then for each year
`1..HOLDING_PERIOD` append
`lscc_free_cash_flow * 1.03 ** (year - 1) + annual_synergies * (1 - TAX_RATE) * 1.05 ** (year - 1)`,
then add the terminal value
`(lscc_ebitda + annual_synergies * 1.05 ** (HOLDING_PERIOD - 1)) * TERMINAL_MULTIPLE`
into the final entry. -/
def project_cash_flows (transaction_value lscc_free_cash_flow lscc_ebitda
    annual_synergies : ℚ) : List ℚ :=
  let after_tax_synergies := annual_synergies * (1 - TAX_RATE)
  let yearly := (List.range HOLDING_PERIOD).map fun j =>
    lscc_free_cash_flow * (103 / 100) ^ j + after_tax_synergies * (105 / 100) ^ j
  let terminal_ebitda :=
    lscc_ebitda + annual_synergies * (105 / 100) ^ (HOLDING_PERIOD - 1)
  addToLast (-transaction_value :: yearly) (terminal_ebitda * TERMINAL_MULTIPLE)

/-! ## Probability-weighted expected IRR
(`calculate_irr_sensitivity.py` lines 207-220) -/

/-- One row of the `results` list: the scenario name and the (optional) solved
IRR, in percent, stored for it. -/
structure ScenarioRow where
  scenario : String
  irr : Option ℚ

/-- The body of the aggregation loop (lines 217-220):
`prob = probabilities.get(result['scenario'], 0)`, and
`if result['irr']: expected_irr += prob * (result['irr'] / 100)`.
Python truthiness: the guard `if result['irr']:` skips the row both when the IRR
is `None` and when it is exactly `0.0`. -/
def expected_irr_step (probabilities : String → ℚ) (acc : ℚ)
    (result : ScenarioRow) : ℚ :=
  match result.irr with
  | none => acc
  | some v => if v = 0 then acc else acc + probabilities result.scenario * (v / 100)

/-- The probability-weighted expected IRR (lines 216-220): a fold of
`expected_irr_step` over the scenario rows starting from `expected_irr = 0`.
`probabilities` models the Python dict via its total `.get(key, 0)` view. -/
def expected_irr (probabilities : String → ℚ) (results : List ScenarioRow) : ℚ :=
  results.foldl (expected_irr_step probabilities) 0

/-! ## Helper lemmas about the bisection solver -/

/-- The bisection result always lies between `low * 100` and `high * 100`. -/
theorem bisect_bounds (cash_flows : List ℚ) (tolerance : ℚ) :
    ∀ (n : ℕ) (low high : ℚ), low ≤ high →
      low * 100 ≤ bisect cash_flows tolerance low high n ∧
        bisect cash_flows tolerance low high n ≤ high * 100 := by
  intro n
  induction n with
  | zero =>
    intro low high h
    simp only [bisect]
    constructor <;> linarith
  | succ n ih =>
    intro low high h
    have hm1 : low ≤ (low + high) / 2 := by linarith
    have hm2 : (low + high) / 2 ≤ high := by linarith
    simp only [bisect]
    by_cases h1 : |npv cash_flows ((low + high) / 2)| < tolerance
    · rw [if_pos h1]
      constructor <;> linarith
    · rw [if_neg h1]
      by_cases h2 : npv cash_flows ((low + high) / 2) > 0
      · rw [if_pos h2]
        obtain ⟨a, b⟩ := ih ((low + high) / 2) high hm2
        constructor <;> linarith
      · rw [if_neg h2]
        obtain ⟨a, b⟩ := ih low ((low + high) / 2) hm1
        constructor <;> linarith

/-- If one stream's NPV dominates another's at every rate of the search bracket,
the bisection result for the dominating stream is at least that of the dominated
stream:  the two runs follow the same midpoints until their NPV signs diverge,
after which the dominated run searches below the split point and the dominating
run above it. -/
theorem bisect_le_bisect (cfs₁ cfs₂ : List ℚ) (tolerance : ℚ) :
    ∀ (n : ℕ) (low high : ℚ), low ≤ high →
      (∀ r, low ≤ r → r ≤ high → npv cfs₁ r ≤ npv cfs₂ r) →
      bisect cfs₁ tolerance low high n ≤ bisect cfs₂ tolerance low high n := by
  intro n
  induction n with
  | zero =>
    intro low high _ _
    simp only [bisect]
    exact le_rfl
  | succ n ih =>
    intro low high hlh hmono
    have hm1 : low ≤ (low + high) / 2 := by linarith
    have hm2 : (low + high) / 2 ≤ high := by linarith
    have hv : npv cfs₁ ((low + high) / 2) ≤ npv cfs₂ ((low + high) / 2) :=
      hmono _ hm1 hm2
    simp only [bisect]
    by_cases h1 : |npv cfs₁ ((low + high) / 2)| < tolerance
    · rw [if_pos h1]
      by_cases h2 : |npv cfs₂ ((low + high) / 2)| < tolerance
      · rw [if_pos h2]
      · rw [if_neg h2]
        have habs := abs_lt.mp h1
        have h2' : tolerance ≤ |npv cfs₂ ((low + high) / 2)| := not_lt.mp h2
        have hpos : npv cfs₂ ((low + high) / 2) > 0 := by
          rcases le_abs.mp h2' with h | h
          · linarith [abs_nonneg (npv cfs₁ ((low + high) / 2))]
          · linarith
        rw [if_pos hpos]
        have := (bisect_bounds cfs₂ tolerance n ((low + high) / 2) high hm2).1
        linarith
    · rw [if_neg h1]
      by_cases h2 : |npv cfs₂ ((low + high) / 2)| < tolerance
      · rw [if_pos h2]
        have habs := abs_lt.mp h2
        have h1' : tolerance ≤ |npv cfs₁ ((low + high) / 2)| := not_lt.mp h1
        have hneg : ¬ npv cfs₁ ((low + high) / 2) > 0 := by
          rcases le_abs.mp h1' with h | h
          · linarith
          · linarith [abs_nonneg (npv cfs₂ ((low + high) / 2))]
        rw [if_neg hneg]
        have := (bisect_bounds cfs₁ tolerance n low ((low + high) / 2) hm1).2
        linarith
      · rw [if_neg h2]
        by_cases hp1 : npv cfs₁ ((low + high) / 2) > 0
        · have hp2 : npv cfs₂ ((low + high) / 2) > 0 := lt_of_lt_of_le hp1 hv
          rw [if_pos hp1, if_pos hp2]
          exact ih ((low + high) / 2) high hm2
            fun r ha hb => hmono r (le_trans hm1 ha) hb
        · rw [if_neg hp1]
          by_cases hp2 : npv cfs₂ ((low + high) / 2) > 0
          · rw [if_pos hp2]
            have hb1 := (bisect_bounds cfs₁ tolerance n low ((low + high) / 2) hm1).2
            have hb2 := (bisect_bounds cfs₂ tolerance n ((low + high) / 2) high hm2).1
            linarith
          · rw [if_neg hp2]
            exact ih low ((low + high) / 2) hm1
              fun r ha hb => hmono r ha (le_trans hb hm2)

/-- NPV-domination over the full search bracket makes `calculate_irr` monotone:
whenever both runs return a value, the dominating stream's IRR is at least the
dominated stream's. -/
theorem calculate_irr_le (cfs₁ cfs₂ : List ℚ) (r₁ r₂ : ℚ)
    (hmono : ∀ r, -99 / 100 ≤ r → r ≤ 10 → npv cfs₁ r ≤ npv cfs₂ r)
    (h₁ : calculate_irr cfs₁ = some r₁) (h₂ : calculate_irr cfs₂ = some r₂) :
    r₁ ≤ r₂ := by
  unfold calculate_irr at h₁ h₂
  by_cases hc1 : npv cfs₁ 10 > 0
  · rw [if_pos hc1] at h₁
    exact absurd h₁ (by simp)
  by_cases hc2 : npv cfs₂ 10 > 0
  · rw [if_pos hc2] at h₂
    exact absurd h₂ (by simp)
  rw [if_neg hc1] at h₁
  rw [if_neg hc2] at h₂
  obtain rfl := (Option.some.injEq _ _).mp h₁.symm
  obtain rfl := (Option.some.injEq _ _).mp h₂.symm
  exact bisect_le_bisect cfs₁ cfs₂ (1 / 1000000) 100 (-99 / 100) 10 (by norm_num)
    hmono

/-- Every midpoint the bisection loop evaluates lies in the current bracket. -/
theorem bisectRates_mem (cash_flows : List ℚ) (tolerance : ℚ) :
    ∀ (n : ℕ) (low high : ℚ), low ≤ high →
      ∀ r ∈ bisectRates cash_flows tolerance low high n, low ≤ r ∧ r ≤ high := by
  intro n
  induction n with
  | zero =>
    intro low high _ r hr
    simp [bisectRates] at hr
  | succ n ih =>
    intro low high h r hr
    have hm1 : low ≤ (low + high) / 2 := by linarith
    have hm2 : (low + high) / 2 ≤ high := by linarith
    simp only [bisectRates] at hr
    rcases List.mem_cons.mp hr with rfl | hr
    · exact ⟨hm1, hm2⟩
    by_cases h1 : |npv cash_flows ((low + high) / 2)| < tolerance
    · rw [if_pos h1] at hr
      simp at hr
    rw [if_neg h1] at hr
    by_cases h2 : npv cash_flows ((low + high) / 2) > 0
    · rw [if_pos h2] at hr
      obtain ⟨a, b⟩ := ih ((low + high) / 2) high hm2 r hr
      exact ⟨by linarith, b⟩
    · rw [if_neg h2] at hr
      obtain ⟨a, b⟩ := ih low ((low + high) / 2) hm1 r hr
      exact ⟨a, by linarith⟩

/-- Pointwise domination of cash flows gives pointwise domination of NPV at any
rate whose discount base `1 + rate` is positive. -/
theorem npvFrom_le_npvFrom (rate : ℚ) (hrate : 0 < 1 + rate) :
    ∀ {l₁ l₂ : List ℚ}, List.Forall₂ (· ≤ ·) l₁ l₂ →
      ∀ i, npvFrom rate l₁ i ≤ npvFrom rate l₂ i := by
  intro l₁ l₂ h
  induction h with
  | nil => intro i; simp [npvFrom]
  | cons hab _ ih =>
    intro i
    simp only [npvFrom]
    have hpow : (0 : ℚ) < (1 + rate) ^ i := pow_pos hrate i
    exact add_le_add ((div_le_div_iff_of_pos_right hpow).mpr hab) (ih (i + 1))

/-! ## Helper lemmas about the projection and the aggregation -/

/-- The projected stream, written out: 8 entries (initial outlay plus
`HOLDING_PERIOD = 7` years), with `1 - TAX_RATE = 79/100` and the terminal value
folded into the final year. -/
theorem project_cash_flows_eq (tv fcf eb syn : ℚ) :
    project_cash_flows tv fcf eb syn =
      [-tv,
       fcf + syn * (79 / 100),
       fcf * (103 / 100) + syn * (79 / 100) * (105 / 100),
       fcf * (103 / 100) ^ 2 + syn * (79 / 100) * (105 / 100) ^ 2,
       fcf * (103 / 100) ^ 3 + syn * (79 / 100) * (105 / 100) ^ 3,
       fcf * (103 / 100) ^ 4 + syn * (79 / 100) * (105 / 100) ^ 4,
       fcf * (103 / 100) ^ 5 + syn * (79 / 100) * (105 / 100) ^ 5,
       fcf * (103 / 100) ^ 6 + syn * (79 / 100) * (105 / 100) ^ 6 +
         (eb + syn * (105 / 100) ^ 6) * 20] := by
  simp only [project_cash_flows, HOLDING_PERIOD, TAX_RATE, TERMINAL_MULTIPLE,
    List.range_succ, List.range_zero, List.map_append, List.map_cons, List.map_nil,
    List.nil_append, List.cons_append, addToLast]
  norm_num

/-- Folding `expected_irr_step` from any accumulator adds the per-row
contributions: `0` for a `None` or exactly-zero IRR, `prob * irr / 100`
otherwise. -/
theorem expected_irr_foldl (probabilities : String → ℚ) :
    ∀ (results : List ScenarioRow) (acc : ℚ),
      List.foldl (expected_irr_step probabilities) acc results =
        acc + (results.map fun result =>
          match result.irr with
          | none => 0
          | some v => if v = 0 then 0
              else probabilities result.scenario * (v / 100)).sum := by
  intro results
  induction results with
  | nil => intro acc; simp
  | cons r rs ih =>
    intro acc
    rw [List.foldl_cons, List.map_cons, List.sum_cons, ih]
    cases hr : r.irr with
    | none => simp [expected_irr_step, hr]
    | some v =>
      by_cases hv : v = 0
      · simp [expected_irr_step, hr, hv]
      · simp only [expected_irr_step, hr, if_neg hv]
        ring

/-! ## Claim theorems -/

/-- C1: for the two-entry cash-flow stream `[-100, 110]`, the bisection IRR
solver returns a value approximately equal to 10.0 (the IRR expressed as a
percentage), within absolute tolerance 1e-4.  The exact value returned is
`2684354839 / 268435456 = 10.0000000339...`, reached by a tolerance exit after
28 bisection iterations. -/
theorem irr_simple_stream :
    ∃ q, calculate_irr [-100, 110] = some q ∧ |q - 10| < 1 / 10000 := by
  refine ⟨2684354839 / 268435456, ?_, ?_⟩
  · rw [calculate_irr, if_neg (by norm_num [npv, npvFrom])]
    rw [show (100 : ℕ) = 99 + 1 from rfl, bisect]
    rw [if_neg (by norm_num [npv, npvFrom, abs_lt]), if_neg (by norm_num [npv, npvFrom])]
    norm_num
    rw [show (99 : ℕ) = 98 + 1 from rfl, bisect]
    rw [if_neg (by norm_num [npv, npvFrom, abs_lt]), if_neg (by norm_num [npv, npvFrom])]
    norm_num
    rw [show (98 : ℕ) = 97 + 1 from rfl, bisect]
    rw [if_neg (by norm_num [npv, npvFrom, abs_lt]), if_neg (by norm_num [npv, npvFrom])]
    norm_num
    rw [show (97 : ℕ) = 96 + 1 from rfl, bisect]
    rw [if_neg (by norm_num [npv, npvFrom, abs_lt]), if_pos (by norm_num [npv, npvFrom])]
    norm_num
    rw [show (96 : ℕ) = 95 + 1 from rfl, bisect]
    rw [if_neg (by norm_num [npv, npvFrom, abs_lt]), if_pos (by norm_num [npv, npvFrom])]
    norm_num
    rw [show (95 : ℕ) = 94 + 1 from rfl, bisect]
    rw [if_neg (by norm_num [npv, npvFrom, abs_lt]), if_neg (by norm_num [npv, npvFrom])]
    norm_num
    rw [show (94 : ℕ) = 93 + 1 from rfl, bisect]
    rw [if_neg (by norm_num [npv, npvFrom, abs_lt]), if_neg (by norm_num [npv, npvFrom])]
    norm_num
    rw [show (93 : ℕ) = 92 + 1 from rfl, bisect]
    rw [if_neg (by norm_num [npv, npvFrom, abs_lt]), if_pos (by norm_num [npv, npvFrom])]
    norm_num
    rw [show (92 : ℕ) = 91 + 1 from rfl, bisect]
    rw [if_neg (by norm_num [npv, npvFrom, abs_lt]), if_neg (by norm_num [npv, npvFrom])]
    norm_num
    rw [show (91 : ℕ) = 90 + 1 from rfl, bisect]
    rw [if_neg (by norm_num [npv, npvFrom, abs_lt]), if_pos (by norm_num [npv, npvFrom])]
    norm_num
    rw [show (90 : ℕ) = 89 + 1 from rfl, bisect]
    rw [if_neg (by norm_num [npv, npvFrom, abs_lt]), if_pos (by norm_num [npv, npvFrom])]
    norm_num
    rw [show (89 : ℕ) = 88 + 1 from rfl, bisect]
    rw [if_neg (by norm_num [npv, npvFrom, abs_lt]), if_neg (by norm_num [npv, npvFrom])]
    norm_num
    rw [show (88 : ℕ) = 87 + 1 from rfl, bisect]
    rw [if_neg (by norm_num [npv, npvFrom, abs_lt]), if_neg (by norm_num [npv, npvFrom])]
    norm_num
    rw [show (87 : ℕ) = 86 + 1 from rfl, bisect]
    rw [if_neg (by norm_num [npv, npvFrom, abs_lt]), if_neg (by norm_num [npv, npvFrom])]
    norm_num
    rw [show (86 : ℕ) = 85 + 1 from rfl, bisect]
    rw [if_neg (by norm_num [npv, npvFrom, abs_lt]), if_pos (by norm_num [npv, npvFrom])]
    norm_num
    rw [show (85 : ℕ) = 84 + 1 from rfl, bisect]
    rw [if_neg (by norm_num [npv, npvFrom, abs_lt]), if_pos (by norm_num [npv, npvFrom])]
    norm_num
    rw [show (84 : ℕ) = 83 + 1 from rfl, bisect]
    rw [if_neg (by norm_num [npv, npvFrom, abs_lt]), if_pos (by norm_num [npv, npvFrom])]
    norm_num
    rw [show (83 : ℕ) = 82 + 1 from rfl, bisect]
    rw [if_neg (by norm_num [npv, npvFrom, abs_lt]), if_pos (by norm_num [npv, npvFrom])]
    norm_num
    rw [show (82 : ℕ) = 81 + 1 from rfl, bisect]
    rw [if_neg (by norm_num [npv, npvFrom, abs_lt]), if_pos (by norm_num [npv, npvFrom])]
    norm_num
    rw [show (81 : ℕ) = 80 + 1 from rfl, bisect]
    rw [if_neg (by norm_num [npv, npvFrom, abs_lt]), if_neg (by norm_num [npv, npvFrom])]
    norm_num
    rw [show (80 : ℕ) = 79 + 1 from rfl, bisect]
    rw [if_neg (by norm_num [npv, npvFrom, abs_lt]), if_pos (by norm_num [npv, npvFrom])]
    norm_num
    rw [show (79 : ℕ) = 78 + 1 from rfl, bisect]
    rw [if_neg (by norm_num [npv, npvFrom, abs_lt]), if_pos (by norm_num [npv, npvFrom])]
    norm_num
    rw [show (78 : ℕ) = 77 + 1 from rfl, bisect]
    rw [if_neg (by norm_num [npv, npvFrom, abs_lt]), if_pos (by norm_num [npv, npvFrom])]
    norm_num
    rw [show (77 : ℕ) = 76 + 1 from rfl, bisect]
    rw [if_neg (by norm_num [npv, npvFrom, abs_lt]), if_neg (by norm_num [npv, npvFrom])]
    norm_num
    rw [show (76 : ℕ) = 75 + 1 from rfl, bisect]
    rw [if_neg (by norm_num [npv, npvFrom, abs_lt]), if_neg (by norm_num [npv, npvFrom])]
    norm_num
    rw [show (75 : ℕ) = 74 + 1 from rfl, bisect]
    rw [if_neg (by norm_num [npv, npvFrom, abs_lt]), if_pos (by norm_num [npv, npvFrom])]
    norm_num
    rw [show (74 : ℕ) = 73 + 1 from rfl, bisect]
    rw [if_neg (by norm_num [npv, npvFrom, abs_lt]), if_neg (by norm_num [npv, npvFrom])]
    norm_num
    rw [show (73 : ℕ) = 72 + 1 from rfl, bisect]
    rw [if_pos (by norm_num [npv, npvFrom, abs_lt])]
    norm_num
  · rw [abs_lt]
    constructor <;> norm_num

/-- C2: for every cash-flow stream whose NPV at the search ceiling `high = 10.0`
is strictly positive, `calculate_irr` returns `None` (not an error): the guard
`if npv(high) > 0: return None` fires before any bisection iteration runs. -/
theorem irr_none_of_npv_ceiling_pos (cash_flows : List ℚ)
    (h : npv cash_flows 10 > 0) : calculate_irr cash_flows = none := by
  rw [calculate_irr, if_pos h]

/-- Witness for C2 at the concrete stream `[1]`: its NPV at rate 10 is `1 > 0`
and the solver returns `None`. -/
theorem irr_none_of_npv_ceiling_pos_witness :
    npv [1] 10 > 0 ∧ calculate_irr [1] = none := by
  have h : npv [1] 10 > 0 := by norm_num [npv, npvFrom]
  exact ⟨h, irr_none_of_npv_ceiling_pos [1] h⟩

/-- C3: for every (acquirer, target) input pair, the consolidation computes
goodwill exactly equal to `transaction_value - target.stockholders_equity`, with
no clamping: when the transaction value is below the target's book equity the
returned goodwill is negative (a bargain purchase). -/
theorem goodwill_eq_tv_sub_book (nvda lscc : FinFacts)
    (nvda_market lscc_market : MarketQuote) :
    (calculate_has_gets_metrics nvda nvda_market lscc lscc_market).goodwill =
        (calculate_has_gets_metrics nvda nvda_market lscc lscc_market).transaction_value -
          lscc.stockholders_equity ∧
      ((calculate_has_gets_metrics nvda nvda_market lscc lscc_market).transaction_value <
          lscc.stockholders_equity →
        (calculate_has_gets_metrics nvda nvda_market lscc lscc_market).goodwill < 0) := by
  have e : (calculate_has_gets_metrics nvda nvda_market lscc lscc_market).goodwill =
      (calculate_has_gets_metrics nvda nvda_market lscc lscc_market).transaction_value -
        lscc.stockholders_equity := rfl
  refine ⟨e, fun h => ?_⟩
  rw [e]
  linarith

/-- Witness for C3: a concrete bargain purchase.  Target price 10, premium 30%,
one share outstanding gives a transaction value of 13, below the target's book
equity of 50, and the returned goodwill is `13 - 50 = -37 < 0`. -/
theorem goodwill_eq_tv_sub_book_witness :
    (calculate_has_gets_metrics ⟨1, 1, 1, 1, 1, 1⟩ ⟨1, 1, 1⟩ ⟨1, 1, 1, 1, 50, 1⟩
        ⟨10, 1, 1⟩).transaction_value < (50 : ℚ) ∧
      (calculate_has_gets_metrics ⟨1, 1, 1, 1, 1, 1⟩ ⟨1, 1, 1⟩ ⟨1, 1, 1, 1, 50, 1⟩
        ⟨10, 1, 1⟩).goodwill < 0 := by
  have h : (calculate_has_gets_metrics ⟨1, 1, 1, 1, 1, 1⟩ ⟨1, 1, 1⟩
      ⟨1, 1, 1, 1, 50, 1⟩ ⟨10, 1, 1⟩).transaction_value < (50 : ℚ) := by
    norm_num [calculate_has_gets_metrics, PREMIUM_PCT]
  exact ⟨h, (goodwill_eq_tv_sub_book ⟨1, 1, 1, 1, 1, 1⟩ ⟨1, 1, 1, 1, 50, 1⟩
    ⟨1, 1, 1⟩ ⟨10, 1, 1⟩).2 h⟩

/-- C4 counterexample: at `net_income = 0`, `revenue = 100`,
`operating_income = -5` (a mild loss: `-5 > -0.10 * 100`), the claim predicts
`operating_income + D&A = -5 + 3 = -2`, but `estimate_operating_cash_flow`
returns `2`: the final line `return max(ocf, revenue * 0.02)` floors every
branch, not only the deep-loss branch. -/
theorem ocf_mild_loss_cex :
    (0 : ℚ) ≤ 0 ∧ (-5 : ℚ) > -100 * (10 / 100) ∧
      estimate_operating_cash_flow 0 100 (-5) none = 2 ∧
      estimate_operating_cash_flow 0 100 (-5) none ≠ -5 + 100 * (3 / 100) := by
  refine ⟨le_rfl, by norm_num, ?_, ?_⟩ <;>
    norm_num [estimate_operating_cash_flow]

/-- C4 amended: for every entity with `net_income ≤ 0` and
`operating_income > -0.10 * revenue`, the estimate equals
`max(operating_income + revenue * 0.03, revenue * 0.02)` — the mild-loss branch
value `operating_income + D&A`, but still subject to the unconditional
`max(ocf, 0.02 * revenue)` floor applied on return to all branches. -/
theorem ocf_mild_loss_floored (net_income revenue operating_income : ℚ)
    (h1 : net_income ≤ 0) (h2 : operating_income > -revenue * (10 / 100)) :
    estimate_operating_cash_flow net_income revenue operating_income none =
      max (operating_income + revenue * (3 / 100)) (revenue * (2 / 100)) := by
  simp only [estimate_operating_cash_flow]
  rw [if_neg (not_lt.mpr h1), if_pos h2]

/-- Witness for C4 amended at `net_income = 0`, `revenue = 100`,
`operating_income = -5`: the estimate is `max (-2) 2 = 2`. -/
theorem ocf_mild_loss_floored_witness :
    (0 : ℚ) ≤ 0 ∧ (-5 : ℚ) > -100 * (10 / 100) ∧
      estimate_operating_cash_flow 0 100 (-5) none =
        max ((-5 : ℚ) + 100 * (3 / 100)) (100 * (2 / 100)) := by
  refine ⟨le_rfl, by norm_num, ocf_mild_loss_floored 0 100 (-5) le_rfl (by norm_num)⟩

/-- C5 counterexample: with target `shares_outstanding = 0 ≤ 0` (all other facts
benign), `calculate_has_gets_metrics` does not fail: it proceeds and computes
`transaction_value = offer_price * 0 = 0` and `goodwill = 0 - 50 = -50`.  The
source contains no `InvalidInput` check (nothing is raised anywhere in
`calculate_has_gets.py`). -/
theorem has_gets_nonpositive_shares_cex :
    ((⟨1, 1, 1, 1, 50, 0⟩ : FinFacts).shares_outstanding ≤ 0) ∧
      (calculate_has_gets_metrics ⟨1, 1, 1, 1, 1, 1⟩ ⟨1, 1, 1⟩ ⟨1, 1, 1, 1, 50, 0⟩
        ⟨10, 1, 1⟩).transaction_value = 0 ∧
      (calculate_has_gets_metrics ⟨1, 1, 1, 1, 1, 1⟩ ⟨1, 1, 1⟩ ⟨1, 1, 1, 1, 50, 0⟩
        ⟨10, 1, 1⟩).goodwill = -50 := by
  refine ⟨le_rfl, ?_, ?_⟩ <;> norm_num [calculate_has_gets_metrics, PREMIUM_PCT]

/-- C5 amended: the consolidation performs no validation of the target's
`shares_outstanding`; even when it is ≤ 0 the computation proceeds, returning
`transaction_value = current_price * (1 + PREMIUM_PCT) * shares_outstanding`
(a non-positive transaction value) and the goodwill derived from it. -/
theorem has_gets_no_shares_validation (nvda lscc : FinFacts)
    (nvda_market lscc_market : MarketQuote)
    (h : lscc.shares_outstanding ≤ 0) :
    (calculate_has_gets_metrics nvda nvda_market lscc lscc_market).transaction_value =
        lscc_market.current_price * (1 + PREMIUM_PCT) * lscc.shares_outstanding ∧
      (calculate_has_gets_metrics nvda nvda_market lscc lscc_market).goodwill =
        lscc_market.current_price * (1 + PREMIUM_PCT) * lscc.shares_outstanding -
          lscc.stockholders_equity :=
  ⟨rfl, rfl⟩

/-- Witness for C5 amended at a concrete target with `shares_outstanding = 0`:
the consolidation still returns `transaction_value = 10 * (1 + 30/100) * 0`
and the corresponding goodwill. -/
theorem has_gets_no_shares_validation_witness :
    ((⟨1, 1, 1, 1, 50, 0⟩ : FinFacts).shares_outstanding ≤ 0) ∧
      ((calculate_has_gets_metrics ⟨1, 1, 1, 1, 1, 1⟩ ⟨1, 1, 1⟩ ⟨1, 1, 1, 1, 50, 0⟩
          ⟨10, 1, 1⟩).transaction_value =
        (10 : ℚ) * (1 + PREMIUM_PCT) * 0 ∧
      (calculate_has_gets_metrics ⟨1, 1, 1, 1, 1, 1⟩ ⟨1, 1, 1⟩ ⟨1, 1, 1, 1, 50, 0⟩
          ⟨10, 1, 1⟩).goodwill = (10 : ℚ) * (1 + PREMIUM_PCT) * 0 - 50) :=
  ⟨le_rfl, has_gets_no_shares_validation ⟨1, 1, 1, 1, 1, 1⟩ ⟨1, 1, 1, 1, 50, 0⟩
    ⟨1, 1, 1⟩ ⟨10, 1, 1⟩ le_rfl⟩

/-- C9: for every input (any net income, any operating income, any non-negative
revenue) with no directly-supplied OCF, the estimator returns at least
`0.02 * revenue`: the final `return max(ocf, revenue * 0.02)` floors every
branch, including the profitable and mild-loss branches. -/
theorem ocf_floor_two_pct (net_income revenue operating_income : ℚ)
    (h : 0 ≤ revenue) :
    revenue * (2 / 100) ≤
      estimate_operating_cash_flow net_income revenue operating_income none := by
  simp only [estimate_operating_cash_flow]
  exact le_max_right _ _

/-- Witness for C9 at a profitable company (`net_income = 5`, `revenue = 100`,
`operating_income = 7`). -/
theorem ocf_floor_two_pct_witness :
    (0 : ℚ) ≤ 100 ∧
      (100 : ℚ) * (2 / 100) ≤ estimate_operating_cash_flow 5 100 7 none :=
  ⟨by norm_num, ocf_floor_two_pct 5 100 7 (by norm_num)⟩

/-- C6: the probability-weighted expected IRR equals the sum, over exactly the
scenarios with a defined IRR, of `probability * (irr / 100)`; rows with an
undefined (`None`) IRR contribute zero.  (The loop's truthiness guard also skips
a defined IRR of exactly 0, but such a row's term `prob * (0 / 100)` is zero, so
the claimed equation holds.) -/
theorem expected_irr_eq_defined_sum (probabilities : String → ℚ)
    (results : List ScenarioRow) :
    expected_irr probabilities results =
      (results.map fun result =>
        match result.irr with
        | none => 0
        | some v => probabilities result.scenario * (v / 100)).sum := by
  rw [expected_irr, expected_irr_foldl, zero_add]
  induction results with
  | nil => rfl
  | cons r rs ih =>
    rw [List.map_cons, List.map_cons, List.sum_cons, List.sum_cons, ih]
    congr 1
    cases hr : r.irr with
    | none => rfl
    | some v =>
      by_cases hv : v = 0
      · simp [hv]
      · simp [hv]

/-- C8: a scenario whose solved IRR is exactly 0 is excluded from the weighted
sum exactly as if its IRR were undefined — replacing `some 0` by `none` in any
row leaves the expected IRR unchanged, so a defined 0% IRR and a non-convergent
IRR are indistinguishable in the expectation. -/
theorem expected_irr_zero_as_undefined (probabilities : String → ℚ)
    (pre post : List ScenarioRow) (name : String) :
    expected_irr probabilities (pre ++ ⟨name, some 0⟩ :: post) =
      expected_irr probabilities (pre ++ ⟨name, none⟩ :: post) := by
  rw [expected_irr, expected_irr, expected_irr_foldl, expected_irr_foldl]
  simp

/-- C10: the IRR solver is total — on every stream it returns `none` or a value
(the Python `try/except` never fires: over exact arithmetic no division by zero
occurs) — and every rate at which it evaluates `npv` (the ceiling check at 10
and all bisection midpoints, collected by `irrEvalRates`) lies in
`[-0.99, 10.0]`, so the discount base `1 + rate` is at least `0.01`. -/
theorem irr_total_rates_bounded (cash_flows : List ℚ) (r : ℚ)
    (hr : r ∈ irrEvalRates cash_flows) :
    (calculate_irr cash_flows = none ∨ ∃ q, calculate_irr cash_flows = some q) ∧
      (-99 / 100 ≤ r ∧ r ≤ 10 ∧ 1 / 100 ≤ 1 + r) := by
  constructor
  · cases h : calculate_irr cash_flows with
    | none => exact Or.inl rfl
    | some q => exact Or.inr ⟨q, rfl⟩
  · rw [irrEvalRates] at hr
    rcases List.mem_cons.mp hr with rfl | hr
    · norm_num
    · by_cases hc : npv cash_flows 10 > 0
      · rw [if_pos hc] at hr
        simp at hr
      · rw [if_neg hc] at hr
        obtain ⟨a, b⟩ := bisectRates_mem cash_flows (1 / 1000000) 100 (-99 / 100) 10
          (by norm_num) r hr
        exact ⟨a, b, by linarith⟩

/-- Witness for C10 at the empty stream and the ceiling rate 10 (which is always
the first evaluated rate). -/
theorem irr_total_rates_bounded_witness :
    (10 : ℚ) ∈ irrEvalRates [] ∧
      ((calculate_irr [] = none ∨ ∃ q, calculate_irr [] = some q) ∧
        (-99 / 100 ≤ (10 : ℚ) ∧ (10 : ℚ) ≤ 10 ∧ 1 / 100 ≤ 1 + (10 : ℚ))) := by
  have hm : (10 : ℚ) ∈ irrEvalRates [] := by
    rw [irrEvalRates]
    exact List.mem_cons_self _ _
  exact ⟨hm, irr_total_rates_bounded [] 10 hm⟩

/-- C7: holding the transaction value, base cash flow, growth rates, tax rate,
base EBITDA, terminal multiple and holding period fixed, strictly increasing
`annual_synergies` strictly increases every year-k entry of the projected
cash-flow stream (years 1..7, including the terminal-value-augmented final
year), and never decreases the solved IRR whenever it is defined for both
inputs. -/
theorem synergy_monotone (tv fcf eb S₁ S₂ : ℚ) (hS : S₁ < S₂) :
    (∀ k : ℕ, 1 ≤ k → k ≤ 7 →
        (project_cash_flows tv fcf eb S₁).getD k 0 <
          (project_cash_flows tv fcf eb S₂).getD k 0) ∧
      ∀ r₁ r₂ : ℚ, calculate_irr (project_cash_flows tv fcf eb S₁) = some r₁ →
        calculate_irr (project_cash_flows tv fcf eb S₂) = some r₂ → r₁ ≤ r₂ := by
  constructor
  · intro k h1 h7
    rw [project_cash_flows_eq, project_cash_flows_eq]
    interval_cases k <;>
      · simp only [List.getD_cons_succ, List.getD_cons_zero]
        nlinarith [hS]
  · intro r₁ r₂ h₁ h₂
    refine calculate_irr_le _ _ r₁ r₂ (fun r hlo hhi => ?_) h₁ h₂
    have hp : (0 : ℚ) < 1 + r := by linarith
    rw [npv, npv]
    refine npvFrom_le_npvFrom r hp ?_ 0
    rw [project_cash_flows_eq, project_cash_flows_eq]
    refine List.Forall₂.cons le_rfl ?_
    refine List.Forall₂.cons (by nlinarith) ?_
    refine List.Forall₂.cons (by nlinarith) ?_
    refine List.Forall₂.cons (by nlinarith) ?_
    refine List.Forall₂.cons (by nlinarith) ?_
    refine List.Forall₂.cons (by nlinarith) ?_
    refine List.Forall₂.cons (by nlinarith) ?_
    exact List.Forall₂.cons (by nlinarith) List.Forall₂.nil

/-- Witness for C7 at `tv = 100`, `fcf = 1`, `eb = 1`, `S₁ = 0 < S₂ = 1`. -/
theorem synergy_monotone_witness :
    (0 : ℚ) < 1 ∧
      ((∀ k : ℕ, 1 ≤ k → k ≤ 7 →
          (project_cash_flows 100 1 1 0).getD k 0 <
            (project_cash_flows 100 1 1 1).getD k 0) ∧
        ∀ r₁ r₂ : ℚ, calculate_irr (project_cash_flows 100 1 1 0) = some r₁ →
          calculate_irr (project_cash_flows 100 1 1 1) = some r₂ → r₁ ≤ r₂) :=
  ⟨by norm_num, synergy_monotone 100 1 1 0 1 (by norm_num)⟩
